import Mathlib

/-!
Shallow embedding of `MultiAircraftVertiportEnv.py`: the airspace simulator's
entities (`Aircraft`, `VertiPort`, `Goal`), the registry (`AircraftDict`), the
kinematics step, the spawn scheduler inside `MultiAircraftEnv.step`, and the
conflict/reward engine `MultiAircraftEnv._terminal_reward`.

Real-valued quantities (Python floats) are modelled as rationals.  The math
library's `sqrt`, `cos`, `sin`, `atan2` are abstract function parameters
(`rsqrt`, `rcos`, `rsin`, `ratan2`), and every random draw of the source is an
explicit input: a Gaussian speed perturbation is passed as `noise`, a call of
`np.random.uniform(lo, hi)` is modelled as `lo + u * (hi - lo)` for a unit
sample `u`, and `random.choice` receives its chosen index.
-/

namespace MultiAircraftVertiportEnv

/-- The constants of `config_vertiport.Config` consumed by the core. -/
structure Config where
  window_width : ℚ
  window_height : ℚ
  minimum_separation : ℚ
  NMAC_dist : ℚ
  goal_radius : ℚ
  init_speed : ℚ
  min_speed : ℚ
  max_speed : ℚ
  speed_sigma : ℚ
  d_heading : ℚ
  time_interval_lower : ℚ
  time_interval_upper : ℚ
  conflict_penalty : ℚ
  NMAC_penalty : ℚ
  wall_penalty : ℚ
  goal_reward : ℚ
  step_penalty : ℚ

/-- The `Goal` entity: a target position owned by its aircraft. -/
structure Goal where
  position : ℚ × ℚ

/-- The mutable fields of the `Aircraft` entity.  `conflict_id_set` is the
Python set of intruder ids currently within the separation threshold. -/
structure Aircraft where
  id : ℕ
  position : ℚ × ℚ
  speed : ℚ
  heading : ℚ
  velocity : ℚ × ℚ
  reward : ℚ
  goal : Goal
  conflict_id_set : Finset ℕ

/-- `Aircraft.__init__`: the velocity is computed from the heading argument
first; afterwards the stored heading is overwritten with
`atan2(goal_y - pos_y, goal_x - pos_x)`. -/
def Aircraft.init (rcos rsin : ℚ → ℚ) (ratan2 : ℚ → ℚ → ℚ)
    (id : ℕ) (position : ℚ × ℚ) (speed heading : ℚ) (goal_pos : ℚ × ℚ) : Aircraft :=
  let vx := speed * rcos heading
  let vy := speed * rsin heading
  let dx := goal_pos.1 - position.1
  let dy := goal_pos.2 - position.2
  { id := id
    position := position
    speed := speed
    heading := ratan2 dy dx
    velocity := (vx, vy)
    reward := 0
    goal := ⟨goal_pos⟩
    conflict_id_set := ∅ }

/-- `Aircraft.step`: one kinematics tick with control `a` (the source's default
is `a = 1`).  The speed is projected into `[min_speed, max_speed]`, then the
Gaussian perturbation `noise` is added with no clamp afterwards; the heading
accumulates `(a - 1) * d_heading` with no wraparound; velocity and position
follow.  The speed bounds live on the aircraft via `load_config`, which copies
them from the ambient `Config`, here passed as `cfg`. -/
def Aircraft.step (cfg : Config) (rcos rsin : ℚ → ℚ) (noise : ℚ) (a : ℤ)
    (ac : Aircraft) : Aircraft :=
  let speed := max cfg.min_speed (min ac.speed cfg.max_speed) + noise
  let heading := ac.heading + ((a : ℚ) - 1) * cfg.d_heading
  let vx := speed * rcos heading
  let vy := speed * rsin heading
  { ac with
    speed := speed
    heading := heading
    velocity := (vx, vy)
    position := (ac.position.1 + vx, ac.position.2 + vy) }

/-- The `VertiPort` entity.  `clock_counter` is an integer tick count in the
source; it is modelled as a rational so that it compares directly with the
real-valued `time_next_aircraft`. -/
structure VertiPort where
  id : ℕ
  position : ℚ × ℚ
  clock_counter : ℚ
  time_next_aircraft : ℚ

instance : Inhabited VertiPort :=
  ⟨⟨0, (0, 0), 0, 0⟩⟩

/-- `VertiPort.__init__`: the initial `time_next_aircraft` is
`np.random.uniform(0, 60)`, i.e. `0 + u * (60 - 0)` for a unit sample `u`.
The ambient configuration `cfg` is in scope in the source module but unused
here: the configured spawn-interval bounds play no role at construction. -/
def VertiPort.init (cfg : Config) (id : ℕ) (position : ℚ × ℚ) (u : ℚ) : VertiPort :=
  { id := id
    position := position
    clock_counter := 0
    time_next_aircraft := 0 + u * (60 - 0) }

/-- `VertiPort.generate_interval`: redraw `time_next_aircraft` from
`np.random.uniform(time_interval_lower, time_interval_upper)` (unit sample `u`)
and reset the clock to 0. -/
def VertiPort.generate_interval (cfg : Config) (u : ℚ) (vp : VertiPort) : VertiPort :=
  { vp with
    time_next_aircraft :=
      cfg.time_interval_lower + u * (cfg.time_interval_upper - cfg.time_interval_lower)
    clock_counter := 0 }

/-- `VertiPort.step`: advance the clock counter by 1. -/
def VertiPort.step (vp : VertiPort) : VertiPort :=
  { vp with clock_counter := vp.clock_counter + 1 }

/-- `AircraftDict`: the registry, a Python `OrderedDict` keyed by aircraft id,
modelled as an insertion-ordered association list. -/
structure AircraftDict where
  ac_dict : List (ℕ × Aircraft)

/-- The registry's keys in iteration order. -/
def AircraftDict.keys (d : AircraftDict) : List ℕ :=
  d.ac_dict.map Prod.fst

/-- `AircraftDict.add`: the source asserts that the id is not yet present
(`none` models the assertion failure) and otherwise stores the entry, which
for a fresh key of an `OrderedDict` lands at the end of the iteration order. -/
def AircraftDict.add (d : AircraftDict) (ac : Aircraft) : Option AircraftDict :=
  if ac.id ∈ d.keys then none
  else some ⟨d.ac_dict ++ [(ac.id, ac)]⟩

/-- Deletion of a key, as performed by `del self.ac_dict[aircraft.id]`; the
source catches `KeyError`, so an absent id is a no-op. -/
def AircraftDict.remove_id (d : AircraftDict) (i : ℕ) : AircraftDict :=
  ⟨d.ac_dict.eraseP (fun e => e.1 == i)⟩

/-- `AircraftDict.remove`. -/
def AircraftDict.remove (d : AircraftDict) (ac : Aircraft) : AircraftDict :=
  d.remove_id ac.id

/-- `AircraftDict.get_aircraft_by_id`: `none` models the `KeyError` raised on
an absent id. -/
def AircraftDict.get_aircraft_by_id (d : AircraftDict) (aircraft_id : ℕ) :
    Option Aircraft :=
  (d.ac_dict.find? (fun e => e.1 == aircraft_id)).map Prod.snd

/-- `MultiAircraftEnv.metric`: Euclidean distance between two points, with the
square root abstract. -/
def metric (rsqrt : ℚ → ℚ) (pos1 pos2 : ℚ × ℚ) : ℚ :=
  rsqrt ((pos1.1 - pos2.1) ^ 2 + (pos1.2 - pos2.2) ^ 2)

/-- `MultiAircraftEnv.dist_to_all_aircraft`: the distances to, and the ids of,
every live aircraft other than the argument, in registry iteration order. -/
def dist_to_all_aircraft (rsqrt : ℚ → ℚ) (d : AircraftDict) (ac : Aircraft) :
    List ℚ × List ℕ :=
  let others := d.ac_dict.filter (fun e => e.1 ≠ ac.id)
  (others.map (fun e => metric rsqrt ac.position e.2.position),
   others.map Prod.fst)

/-- `min(dist_array) if dist_array.shape[0] > 0 else 9999`. -/
def minOr9999 : List ℚ → ℚ
  | [] => 9999
  | x :: xs => xs.foldl min x

/-- `MultiAircraftEnv.dist_goal`. -/
def dist_goal (rsqrt : ℚ → ℚ) (ac : Aircraft) : ℚ :=
  metric rsqrt ac.position ac.goal.position

/-- `self.position_range.contains(position)`: membership in the gym `Box`
`[0, window_width] × [0, window_height]`. -/
def containsPos (cfg : Config) (p : ℚ × ℚ) : Prop :=
  0 ≤ p.1 ∧ p.1 ≤ cfg.window_width ∧ 0 ≤ p.2 ∧ p.2 ≤ cfg.window_height

instance (cfg : Config) (p : ℚ × ℚ) : Decidable (containsPos cfg p) := by
  unfold containsPos
  infer_instance

/-- One aircraft's conflict scan in `_terminal_reward` — the loop
`for id, dist in zip(id_array, dist_array)`.  A distance at or above
`minimum_separation` discards the id from the aircraft's conflict set; a closer
intruder raises the conflict flag, increments the global conflict counter when
the id is newly detected, and sets the conflict penalty as the reward.  Returns
the updated aircraft, the updated global counter, and the conflict flag.  `scanStep` is the loop body, `conflictScan` the loop. -/
def scanStep (cfg : Config) (acc : Aircraft × ℕ × Bool) (e : ℕ × ℚ) :
    Aircraft × ℕ × Bool :=
  if e.2 ≥ cfg.minimum_separation then
    ({ acc.1 with conflict_id_set := acc.1.conflict_id_set.erase e.1 },
     acc.2.1, acc.2.2)
  else if e.1 ∈ acc.1.conflict_id_set then
    ({ acc.1 with reward := cfg.conflict_penalty }, acc.2.1, true)
  else
    ({ acc.1 with
        reward := cfg.conflict_penalty
        conflict_id_set := insert e.1 acc.1.conflict_id_set },
     acc.2.1 + 1, true)

def conflictScan (cfg : Config) (pairs : List (ℕ × ℚ)) (ac : Aircraft)
    (conflicts : ℕ) : Aircraft × ℕ × Bool :=
  pairs.foldl (scanStep cfg) (ac, conflicts, false)

/-- The accumulator threaded through the scoring loop of `_terminal_reward`:
the scored aircraft so far, the episode counters, the summed reward, the
deferred-removal list (ids stand in for the Python object identities — registry
keys are unique), and the `min_dist` diagnostics. -/
structure ScoreAcc where
  out : List (ℕ × Aircraft)
  conflicts : ℕ
  goals : ℕ
  NMACs : ℕ
  reward : ℚ
  removal : List ℕ
  info : List ℚ

/-- The body of the scoring loop of `_terminal_reward` for one aircraft:
compute `min_dist` and `dist_goal` against the registry snapshot, run the
conflict scan, then the `if`/`elif` outcome chain (near-miss, out-of-map,
goal-reached, nominal) assigns the reward, the removal mark and the counter
increments; finally the aircraft's reward is accumulated. -/
def scoreAircraft (cfg : Config) (rsqrt : ℚ → ℚ) (snapshot : AircraftDict)
    (acc : ScoreAcc) (e : ℕ × Aircraft) : ScoreAcc :=
  let dl := dist_to_all_aircraft rsqrt snapshot e.2
  let min_dist := minOr9999 dl.1
  let dg := dist_goal rsqrt e.2
  let scan := conflictScan cfg (dl.2.zip dl.1) e.2 acc.conflicts
  let res :=
    if min_dist < cfg.NMAC_dist then
      (({ scan.1 with reward := cfg.NMAC_penalty } : Aircraft),
       acc.removal ++ [e.1], acc.goals, acc.NMACs + 1)
    else if ¬ containsPos cfg scan.1.position then
      ({ scan.1 with reward := cfg.wall_penalty },
       if e.1 ∈ acc.removal then acc.removal else acc.removal ++ [e.1],
       acc.goals, acc.NMACs)
    else if dg < cfg.goal_radius then
      ({ scan.1 with reward := cfg.goal_reward },
       if e.1 ∈ acc.removal then acc.removal else acc.removal ++ [e.1],
       acc.goals + 1, acc.NMACs)
    else if scan.2.2 = false then
      ({ scan.1 with reward := cfg.step_penalty },
       acc.removal, acc.goals, acc.NMACs)
    else
      (scan.1, acc.removal, acc.goals, acc.NMACs)
  { out := acc.out ++ [(e.1, res.1)]
    conflicts := scan.2.1
    goals := res.2.2.1
    NMACs := res.2.2.2
    reward := acc.reward + res.1.reward
    removal := res.2.1
    info := acc.info ++ [min_dist] }

/-- The result of `_terminal_reward`: the registry after the deferred removals,
the episode counters, the summed tick reward, the terminal flag (always
`false`), and the diagnostics list. -/
structure ScoreResult where
  dict : AircraftDict
  conflicts : ℕ
  goals : ℕ
  NMACs : ℕ
  reward : ℚ
  terminal : Bool
  info : List ℚ

/-- `MultiAircraftEnv._terminal_reward`: score every live aircraft against the
same registry snapshot (positions do not change during scoring), then apply the
deferred removals. -/
def terminalReward (cfg : Config) (rsqrt : ℚ → ℚ) (d : AircraftDict)
    (conflicts goals NMACs : ℕ) : ScoreResult :=
  let acc := d.ac_dict.foldl (scoreAircraft cfg rsqrt d)
    { out := [], conflicts := conflicts, goals := goals, NMACs := NMACs,
      reward := 0, removal := [], info := [] }
  { dict := acc.removal.foldl (fun dd i => dd.remove_id i) ⟨acc.out⟩
    conflicts := acc.conflicts
    goals := acc.goals
    NMACs := acc.NMACs
    reward := acc.reward
    terminal := false
    info := acc.info }

/-- The spawn-relevant slice of the environment state: the registry and the
monotone identity counter `id_tracker`. -/
structure SpawnState where
  aircraft_dict : AircraftDict
  id_tracker : ℕ

/-- One vertiport's slice of the spawn loop in `MultiAircraftEnv.step`: advance
the clock and, when it has reached `time_next_aircraft` and spawning is still
enabled, build the candidate aircraft and run the admission test.  `goalChoice`
is the index drawn by `random.choice` among the other vertiports, `headingDraw`
the `random_heading()` sample, `intervalDraw` the unit sample consumed by
`generate_interval` on success.  `none` models the `add` assertion failure. -/
def spawnVertiport (cfg : Config) (rsqrt rcos rsin : ℚ → ℚ) (ratan2 : ℚ → ℚ → ℚ)
    (allvps : List VertiPort) (near_end : Bool)
    (goalChoice : ℕ) (headingDraw intervalDraw : ℚ)
    (st : SpawnState) (vp : VertiPort) : Option (SpawnState × VertiPort) :=
  let vp := vp.step
  if vp.clock_counter ≥ vp.time_next_aircraft ∧ near_end = false then
    let aircraft := Aircraft.init rcos rsin ratan2 st.id_tracker vp.position
      cfg.init_speed headingDraw (allvps.getD goalChoice default).position
    let dl := dist_to_all_aircraft rsqrt st.aircraft_dict aircraft
    let min_dist := minOr9999 dl.1
    if min_dist > 3 * cfg.minimum_separation then
      match st.aircraft_dict.add aircraft with
      | some dd => some (⟨dd, st.id_tracker + 1⟩, vp.generate_interval cfg intervalDraw)
      | none => none
    else some (st, vp)
  else some (st, vp)

/-- The spawn loop of `MultiAircraftEnv.step` over the whole vertiport list;
the draw functions give each vertiport id its random inputs for this tick. -/
def spawnLoop (cfg : Config) (rsqrt rcos rsin : ℚ → ℚ) (ratan2 : ℚ → ℚ → ℚ)
    (allvps : List VertiPort) (near_end : Bool)
    (goalChoice : ℕ → ℕ) (headingDraw intervalDraw : ℕ → ℚ)
    (st : SpawnState) : List VertiPort → Option (SpawnState × List VertiPort)
  | [] => some (st, [])
  | vp :: rest => do
    let r ← spawnVertiport cfg rsqrt rcos rsin ratan2 allvps near_end
      (goalChoice vp.id) (headingDraw vp.id) (intervalDraw vp.id) st vp
    let rr ← spawnLoop cfg rsqrt rcos rsin ratan2 allvps near_end
      goalChoice headingDraw intervalDraw r.1 rest
    pure (rr.1, r.2 :: rr.2)

/-- `MultiAircraftEnv.reset`: fresh registry, identity counter 0, and the
episode counters (conflicts, goals, NMACs) reset to 0. -/
def envReset : SpawnState × ℕ × ℕ × ℕ :=
  (⟨⟨[]⟩, 0⟩, 0, 0, 0)

/-- A registry call: an `add` or a `remove` of a given aircraft. -/
inductive RegOp where
  | add (ac : Aircraft)
  | remove (ac : Aircraft)

/-- Apply one registry call; a failed `add` assertion aborts the source, so the
registry is left unchanged. -/
def applyRegOp (d : AircraftDict) : RegOp → AircraftDict
  | RegOp.add ac => (d.add ac).getD d
  | RegOp.remove ac => d.remove ac

/-- Apply a sequence of registry calls. -/
def applyRegOps (d : AircraftDict) (ops : List RegOp) : AircraftDict :=
  ops.foldl applyRegOp d

/-- Scenario scaffolding for multi-tick runs: place each live aircraft at a new
position, leaving every other field — in particular the conflict-id sets —
untouched, which is exactly the footprint the kinematics phase has on the
conflict bookkeeping (`Aircraft.step` never writes `conflict_id_set`). -/
def updatePos (f : ℕ → ℚ × ℚ) (d : AircraftDict) : AircraftDict :=
  ⟨d.ac_dict.map (fun e => (e.1, { e.2 with position := f e.1 }))⟩

/-- A sample configuration, used by the concrete witnesses below. -/
def cfg0 : Config :=
  { window_width := 800
    window_height := 800
    minimum_separation := 100
    NMAC_dist := 30
    goal_radius := 20
    init_speed := 2
    min_speed := 1
    max_speed := 3
    speed_sigma := 0
    d_heading := 1/2
    time_interval_lower := 60
    time_interval_upper := 120
    conflict_penalty := -1
    NMAC_penalty := -10
    wall_penalty := -5
    goal_reward := 10
    step_penalty := -1/100 }

/-- A sample aircraft, used by the concrete witnesses below. -/
def ac0 : Aircraft :=
  { id := 0
    position := (100, 100)
    speed := 2
    heading := 0
    velocity := (2, 0)
    reward := 0
    goal := ⟨(700, 700)⟩
    conflict_id_set := ∅ }

/-- Claim C5: for every newly constructed Aircraft, the stored heading after
construction equals `atan2(goal_y - pos_y, goal_x - pos_x)` computed from its
goal and initial position, regardless of the heading value passed to the
constructor. -/
theorem claim_C5 (rcos rsin : ℚ → ℚ) (ratan2 : ℚ → ℚ → ℚ) (id : ℕ)
    (position : ℚ × ℚ) (speed heading : ℚ) (goal_pos : ℚ × ℚ) :
    (Aircraft.init rcos rsin ratan2 id position speed heading goal_pos).heading
      = ratan2 (goal_pos.2 - position.2) (goal_pos.1 - position.1) := rfl

/-- Claim C8 (implicit): a newly constructed Aircraft's stored velocity equals
`(speed * cos h, speed * sin h)` for the heading `h` passed to the constructor,
because the velocity is computed before the heading is overridden to point at
the goal. -/
theorem claim_C8 (rcos rsin : ℚ → ℚ) (ratan2 : ℚ → ℚ → ℚ) (id : ℕ)
    (position : ℚ × ℚ) (speed heading : ℚ) (goal_pos : ℚ × ℚ) :
    (Aircraft.init rcos rsin ratan2 id position speed heading goal_pos).velocity
      = (speed * rcos heading, speed * rsin heading) := rfl

/-- Claim C4: one kinematics tick first clamps the speed into
`[min_speed, max_speed]`, then adds the noise with no clamp afterwards, then
adds `(a - 1) * d_heading` to the heading with no wraparound, then recomputes
the velocity from the post-noise speed and post-delta heading, then adds the
velocity to the position; no other aircraft field is modified. -/
theorem claim_C4 (cfg : Config) (rcos rsin : ℚ → ℚ) (noise : ℚ) (a : ℤ)
    (ac : Aircraft) :
    (Aircraft.step cfg rcos rsin noise a ac).speed
        = max cfg.min_speed (min ac.speed cfg.max_speed) + noise
      ∧ (Aircraft.step cfg rcos rsin noise a ac).heading
          = ac.heading + ((a : ℚ) - 1) * cfg.d_heading
      ∧ (Aircraft.step cfg rcos rsin noise a ac).velocity
          = ((Aircraft.step cfg rcos rsin noise a ac).speed
               * rcos (Aircraft.step cfg rcos rsin noise a ac).heading,
             (Aircraft.step cfg rcos rsin noise a ac).speed
               * rsin (Aircraft.step cfg rcos rsin noise a ac).heading)
      ∧ (Aircraft.step cfg rcos rsin noise a ac).position
          = (ac.position.1 + (Aircraft.step cfg rcos rsin noise a ac).velocity.1,
             ac.position.2 + (Aircraft.step cfg rcos rsin noise a ac).velocity.2)
      ∧ (Aircraft.step cfg rcos rsin noise a ac).id = ac.id
      ∧ (Aircraft.step cfg rcos rsin noise a ac).reward = ac.reward
      ∧ (Aircraft.step cfg rcos rsin noise a ac).goal = ac.goal
      ∧ (Aircraft.step cfg rcos rsin noise a ac).conflict_id_set
          = ac.conflict_id_set :=
  ⟨rfl, rfl, rfl, rfl, rfl, rfl, rfl, rfl⟩

/-- Claim C7 counterexample: the claim says an out-of-range control is rejected
with an assertion or exception and its heading delta is never applied; in the
code `Aircraft.step` has no validation at all, and the control 5 is silently
applied, moving the heading of `ac0` from 0 to `(5 - 1) * d_heading = 2`. -/
theorem claim_C7_counterexample :
    (Aircraft.step cfg0 (fun _ => 1) (fun _ => 0) 0 5 ac0).heading = 2
      ∧ ac0.heading = 0 ∧ (2 : ℚ) ≠ 0 := by
  refine ⟨?_, rfl, by norm_num⟩
  norm_num [Aircraft.step, cfg0, ac0]

/-- Claim C7 (amended): the kinematics step accepts every integer control
without any validation and applies the heading delta `(a - 1) * d_heading`
even when the control lies outside the three-valued set `{0, 1, 2}`. -/
theorem claim_C7 (cfg : Config) (rcos rsin : ℚ → ℚ) (noise : ℚ) (a : ℤ)
    (ac : Aircraft) :
    (Aircraft.step cfg rcos rsin noise a ac).heading
      = ac.heading + ((a : ℚ) - 1) * cfg.d_heading := rfl

/-- Claim C10 (implicit): a VertiPort's initial time-next-aircraft is drawn
uniformly from `[0, 60)` at construction — for the unit sample `u` it equals
`u * 60`, lies in `[0, 60)` whenever `0 ≤ u < 1`, and does not depend on the
configured spawn-interval bounds; only `generate_interval` uses the configured
lower and upper interval bounds. -/
theorem claim_C10 (cfg cfg2 : Config) (id : ℕ) (position : ℚ × ℚ) (u : ℚ)
    (vp : VertiPort) (h0 : 0 ≤ u) (h1 : u < 1) :
    (VertiPort.init cfg id position u).time_next_aircraft = u * 60
      ∧ VertiPort.init cfg id position u = VertiPort.init cfg2 id position u
      ∧ 0 ≤ (VertiPort.init cfg id position u).time_next_aircraft
      ∧ (VertiPort.init cfg id position u).time_next_aircraft < 60
      ∧ (VertiPort.generate_interval cfg u vp).time_next_aircraft
          = cfg.time_interval_lower
              + u * (cfg.time_interval_upper - cfg.time_interval_lower) := by
  refine ⟨by norm_num [VertiPort.init], rfl, ?_, ?_, rfl⟩
  · show (0 : ℚ) ≤ 0 + u * (60 - 0)
    nlinarith
  · show (0 : ℚ) + u * (60 - 0) < 60
    nlinarith

/-- Witness for claim C10 at the concrete unit sample 1/2. -/
theorem claim_C10_witness :
    (VertiPort.init cfg0 0 (0, 0) (1/2)).time_next_aircraft = (1/2 : ℚ) * 60 :=
  (claim_C10 cfg0 cfg0 0 (0, 0) (1/2) default (by norm_num) (by norm_num)).1

/-- A successful `add` appends the entry, so the key list gains the new id at
the end. -/
theorem keys_append (d : AircraftDict) (ac : Aircraft) :
    (⟨d.ac_dict ++ [(ac.id, ac)]⟩ : AircraftDict).keys = d.keys ++ [ac.id] := by
  simp [AircraftDict.keys]

/-- `remove` never reorders the surviving entries. -/
theorem remove_sublist (d : AircraftDict) (ac : Aircraft) :
    (d.remove ac).ac_dict.Sublist d.ac_dict :=
  List.eraseP_sublist _

/-- `remove` of an absent id is a no-op. -/
theorem remove_absent (d : AircraftDict) (ac : Aircraft) (h : ac.id ∉ d.keys) :
    d.remove ac = d := by
  show (⟨d.ac_dict.eraseP (fun e => e.1 == ac.id)⟩ : AircraftDict) = d
  rw [List.eraseP_of_forall_not]
  intro e he
  simp only [beq_iff_eq]
  exact fun he1 => h (he1 ▸ List.mem_map_of_mem Prod.fst he)

/-- One registry call preserves key uniqueness. -/
theorem applyRegOp_nodup (d : AircraftDict) (op : RegOp) (h : d.keys.Nodup) :
    (applyRegOp d op).keys.Nodup := by
  cases op with
  | add ac =>
    by_cases hm : ac.id ∈ d.keys
    · simpa [applyRegOp, AircraftDict.add, hm] using h
    · simp only [applyRegOp, AircraftDict.add, hm, if_neg, Option.getD_some,
        ite_false]
      rw [keys_append]
      simp [List.nodup_append, h, hm]
  | remove ac =>
    exact h.sublist ((remove_sublist d ac).map Prod.fst)

/-- Any sequence of registry calls preserves key uniqueness. -/
theorem applyRegOps_nodup (ops : List RegOp) (d : AircraftDict)
    (h : d.keys.Nodup) : (applyRegOps d ops).keys.Nodup := by
  induction ops generalizing d with
  | nil => exact h
  | cons op rest ih => exact ih (applyRegOp d op) (applyRegOp_nodup d op h)

/-- Claim C6: for every Registry state (keys unique), `add` of an aircraft
whose identity is already present fails with an assertion leaving the registry
unchanged (`none` — the source aborts before storing), `remove` of an absent
identity is a no-op, `get` of an absent identity fails, a successful `add`
appends the entry at the end of the iteration order keeping the identities
unique, `remove` preserves the relative order of the survivors, and after any
sequence of adds and removes from the empty registry the identities remain
unique (so iteration always yields the pairs in insertion order). -/
theorem claim_C6 (d : AircraftDict) (ac : Aircraft) (i : ℕ) (ops : List RegOp)
    (hnd : d.keys.Nodup) :
    (ac.id ∈ d.keys → d.add ac = none)
    ∧ (ac.id ∉ d.keys →
        d.add ac = some ⟨d.ac_dict ++ [(ac.id, ac)]⟩
        ∧ (⟨d.ac_dict ++ [(ac.id, ac)]⟩ : AircraftDict).keys = d.keys ++ [ac.id]
        ∧ (d.keys ++ [ac.id]).Nodup)
    ∧ (ac.id ∉ d.keys → d.remove ac = d)
    ∧ (i ∉ d.keys → d.get_aircraft_by_id i = none)
    ∧ (d.remove ac).ac_dict.Sublist d.ac_dict
    ∧ (applyRegOps ⟨[]⟩ ops).keys.Nodup := by
  refine ⟨?_, ?_, remove_absent d ac, ?_, remove_sublist d ac,
    applyRegOps_nodup ops ⟨[]⟩ (by simp [AircraftDict.keys])⟩
  · intro hm
    simp [AircraftDict.add, hm]
  · intro hm
    refine ⟨by simp [AircraftDict.add, hm], keys_append d ac, ?_⟩
    simp [List.nodup_append, hnd, hm]
  · intro hm
    have : ∀ e ∈ d.ac_dict, ¬((fun e => e.1 == i) e = true) := by
      intro e he
      simp only [beq_iff_eq]
      exact fun he1 => hm (he1 ▸ List.mem_map_of_mem Prod.fst he)
    simp [AircraftDict.get_aircraft_by_id, List.find?_eq_none.mpr this]

/-- Witness for claim C6: a duplicate `add` of `ac0` (id 0) into the singleton
registry holding id 0 fails. -/
theorem claim_C6_witness :
    AircraftDict.add ⟨[(0, ac0)]⟩ ac0 = none :=
  (claim_C6 ⟨[(0, ac0)]⟩ ac0 5 [] (by simp [AircraftDict.keys])).1
    (by simp [AircraftDict.keys, ac0])

/-- Fold invariants of the conflict-scan loop. -/
theorem foldl_scanStep_inv (cfg : Config) (P : Aircraft × ℕ × Bool → Prop)
    (h : ∀ t e, P t → P (scanStep cfg t e)) :
    ∀ (pairs : List (ℕ × ℚ)) (t : Aircraft × ℕ × Bool),
      P t → P (pairs.foldl (scanStep cfg) t) := by
  intro pairs
  induction pairs with
  | nil => exact fun t ht => ht
  | cons e rest ih => exact fun t ht => ih _ (h t e ht)

/-- The conflict scan never changes the aircraft's id, position, speed or
goal, and whenever it reports a conflict it has set the conflict penalty as
the aircraft's reward. -/
theorem conflictScan_inv (cfg : Config) (pairs : List (ℕ × ℚ)) (ac : Aircraft)
    (c : ℕ) :
    (conflictScan cfg pairs ac c).1.id = ac.id
    ∧ (conflictScan cfg pairs ac c).1.position = ac.position
    ∧ (conflictScan cfg pairs ac c).1.goal = ac.goal
    ∧ (conflictScan cfg pairs ac c).1.speed = ac.speed
    ∧ ((conflictScan cfg pairs ac c).2.2 = true →
        (conflictScan cfg pairs ac c).1.reward = cfg.conflict_penalty) := by
  refine foldl_scanStep_inv cfg
    (fun t => t.1.id = ac.id ∧ t.1.position = ac.position ∧ t.1.goal = ac.goal
      ∧ t.1.speed = ac.speed
      ∧ (t.2.2 = true → t.1.reward = cfg.conflict_penalty))
    ?_ pairs (ac, c, false) ⟨rfl, rfl, rfl, rfl, by simp⟩
  intro t e ht
  unfold scanStep
  split_ifs <;> simp_all

/-- Full case analysis of the scoring-loop body `scoreAircraft`: the outcome
chain near-miss / out-of-map / goal-reached / nominal / in-conflict, with the
reward assignment, removal marking and counter increments of each case. -/
theorem scoreAircraft_spec (cfg : Config) (rsqrt : ℚ → ℚ)
    (snapshot : AircraftDict) (acc : ScoreAcc) (e : ℕ × Aircraft) (md dg : ℚ)
    (scan : Aircraft × ℕ × Bool)
    (hmd : md = minOr9999 (dist_to_all_aircraft rsqrt snapshot e.2).1)
    (hdg : dg = dist_goal rsqrt e.2)
    (hscan : scan = conflictScan cfg
        ((dist_to_all_aircraft rsqrt snapshot e.2).2.zip
          (dist_to_all_aircraft rsqrt snapshot e.2).1) e.2 acc.conflicts) :
    (md < cfg.NMAC_dist →
        scoreAircraft cfg rsqrt snapshot acc e
          = { out := acc.out ++ [(e.1, { scan.1 with reward := cfg.NMAC_penalty })]
              conflicts := scan.2.1
              goals := acc.goals
              NMACs := acc.NMACs + 1
              reward := acc.reward + cfg.NMAC_penalty
              removal := acc.removal ++ [e.1]
              info := acc.info ++ [md] })
    ∧ (¬ md < cfg.NMAC_dist → ¬ containsPos cfg e.2.position →
        scoreAircraft cfg rsqrt snapshot acc e
          = { out := acc.out ++ [(e.1, { scan.1 with reward := cfg.wall_penalty })]
              conflicts := scan.2.1
              goals := acc.goals
              NMACs := acc.NMACs
              reward := acc.reward + cfg.wall_penalty
              removal := if e.1 ∈ acc.removal then acc.removal
                         else acc.removal ++ [e.1]
              info := acc.info ++ [md] })
    ∧ (¬ md < cfg.NMAC_dist → containsPos cfg e.2.position →
        dg < cfg.goal_radius →
        scoreAircraft cfg rsqrt snapshot acc e
          = { out := acc.out ++ [(e.1, { scan.1 with reward := cfg.goal_reward })]
              conflicts := scan.2.1
              goals := acc.goals + 1
              NMACs := acc.NMACs
              reward := acc.reward + cfg.goal_reward
              removal := if e.1 ∈ acc.removal then acc.removal
                         else acc.removal ++ [e.1]
              info := acc.info ++ [md] })
    ∧ (¬ md < cfg.NMAC_dist → containsPos cfg e.2.position →
        ¬ dg < cfg.goal_radius → scan.2.2 = false →
        scoreAircraft cfg rsqrt snapshot acc e
          = { out := acc.out ++ [(e.1, { scan.1 with reward := cfg.step_penalty })]
              conflicts := scan.2.1
              goals := acc.goals
              NMACs := acc.NMACs
              reward := acc.reward + cfg.step_penalty
              removal := acc.removal
              info := acc.info ++ [md] })
    ∧ (¬ md < cfg.NMAC_dist → containsPos cfg e.2.position →
        ¬ dg < cfg.goal_radius → scan.2.2 = true →
        scoreAircraft cfg rsqrt snapshot acc e
          = { out := acc.out ++ [(e.1, scan.1)]
              conflicts := scan.2.1
              goals := acc.goals
              NMACs := acc.NMACs
              reward := acc.reward + cfg.conflict_penalty
              removal := acc.removal
              info := acc.info ++ [md] }) := by
  have hpos : (conflictScan cfg
      ((dist_to_all_aircraft rsqrt snapshot e.2).2.zip
        (dist_to_all_aircraft rsqrt snapshot e.2).1) e.2 acc.conflicts).1.position
      = e.2.position :=
    (conflictScan_inv cfg _ e.2 acc.conflicts).2.1
  have hrew := (conflictScan_inv cfg
    ((dist_to_all_aircraft rsqrt snapshot e.2).2.zip
      (dist_to_all_aircraft rsqrt snapshot e.2).1) e.2 acc.conflicts).2.2.2.2
  subst hmd hdg hscan
  refine ⟨?_, ?_, ?_, ?_, ?_⟩
  · intro h1
    simp only [scoreAircraft, if_pos h1]
  · intro h1 h2
    rw [← hpos] at h2
    simp only [scoreAircraft, if_neg h1, if_pos h2]
  · intro h1 h2 h3
    rw [← hpos] at h2
    simp only [scoreAircraft, if_neg h1, if_neg (not_not_intro h2), if_pos h3]
  · intro h1 h2 h3 h4
    rw [← hpos] at h2
    simp only [scoreAircraft, if_neg h1, if_neg (not_not_intro h2), if_neg h3,
      if_pos h4]
  · intro h1 h2 h3 h4
    rw [← hpos] at h2
    have h4' : ¬ ((conflictScan cfg
        ((dist_to_all_aircraft rsqrt snapshot e.2).2.zip
          (dist_to_all_aircraft rsqrt snapshot e.2).1) e.2
        acc.conflicts).2.2 = false) := by simp [h4]
    simp only [scoreAircraft, if_neg h1, if_neg (not_not_intro h2), if_neg h3,
      if_neg h4']
    rw [hrew h4]

/-- Claim C2: the first matching case of (1) `min_dist < NMAC_dist`,
(2) position outside the bounded world, (3) distance to goal < goal radius,
(4) not in conflict, determines the aircraft's reward (NMAC / wall / goal /
step, conflict penalty otherwise) and its removal mark; in particular an
aircraft simultaneously satisfying the near-miss and the goal-reached
conditions is scored as a near-miss — the near-miss counter is incremented,
the goal counter is not — and it appears in the removal list exactly once. -/
theorem claim_C2 (cfg : Config) (rsqrt : ℚ → ℚ) (snapshot : AircraftDict)
    (acc : ScoreAcc) (e : ℕ × Aircraft) (md dg : ℚ)
    (scan : Aircraft × ℕ × Bool)
    (hmd : md = minOr9999 (dist_to_all_aircraft rsqrt snapshot e.2).1)
    (hdg : dg = dist_goal rsqrt e.2)
    (hscan : scan = conflictScan cfg
        ((dist_to_all_aircraft rsqrt snapshot e.2).2.zip
          (dist_to_all_aircraft rsqrt snapshot e.2).1) e.2 acc.conflicts)
    (hnotin : e.1 ∉ acc.removal) :
    (md < cfg.NMAC_dist →
        scoreAircraft cfg rsqrt snapshot acc e
          = { out := acc.out ++ [(e.1, { scan.1 with reward := cfg.NMAC_penalty })]
              conflicts := scan.2.1
              goals := acc.goals
              NMACs := acc.NMACs + 1
              reward := acc.reward + cfg.NMAC_penalty
              removal := acc.removal ++ [e.1]
              info := acc.info ++ [md] }
        ∧ (scoreAircraft cfg rsqrt snapshot acc e).removal.count e.1 = 1
        ∧ (scoreAircraft cfg rsqrt snapshot acc e).NMACs = acc.NMACs + 1
        ∧ (scoreAircraft cfg rsqrt snapshot acc e).goals = acc.goals)
    ∧ (¬ md < cfg.NMAC_dist → ¬ containsPos cfg e.2.position →
        scoreAircraft cfg rsqrt snapshot acc e
          = { out := acc.out ++ [(e.1, { scan.1 with reward := cfg.wall_penalty })]
              conflicts := scan.2.1
              goals := acc.goals
              NMACs := acc.NMACs
              reward := acc.reward + cfg.wall_penalty
              removal := if e.1 ∈ acc.removal then acc.removal
                         else acc.removal ++ [e.1]
              info := acc.info ++ [md] })
    ∧ (¬ md < cfg.NMAC_dist → containsPos cfg e.2.position →
        dg < cfg.goal_radius →
        scoreAircraft cfg rsqrt snapshot acc e
          = { out := acc.out ++ [(e.1, { scan.1 with reward := cfg.goal_reward })]
              conflicts := scan.2.1
              goals := acc.goals + 1
              NMACs := acc.NMACs
              reward := acc.reward + cfg.goal_reward
              removal := if e.1 ∈ acc.removal then acc.removal
                         else acc.removal ++ [e.1]
              info := acc.info ++ [md] })
    ∧ (¬ md < cfg.NMAC_dist → containsPos cfg e.2.position →
        ¬ dg < cfg.goal_radius → scan.2.2 = false →
        scoreAircraft cfg rsqrt snapshot acc e
          = { out := acc.out ++ [(e.1, { scan.1 with reward := cfg.step_penalty })]
              conflicts := scan.2.1
              goals := acc.goals
              NMACs := acc.NMACs
              reward := acc.reward + cfg.step_penalty
              removal := acc.removal
              info := acc.info ++ [md] })
    ∧ (¬ md < cfg.NMAC_dist → containsPos cfg e.2.position →
        ¬ dg < cfg.goal_radius → scan.2.2 = true →
        scoreAircraft cfg rsqrt snapshot acc e
          = { out := acc.out ++ [(e.1, scan.1)]
              conflicts := scan.2.1
              goals := acc.goals
              NMACs := acc.NMACs
              reward := acc.reward + cfg.conflict_penalty
              removal := acc.removal
              info := acc.info ++ [md] }) := by
  obtain ⟨s1, s2, s3, s4, s5⟩ :=
    scoreAircraft_spec cfg rsqrt snapshot acc e md dg scan hmd hdg hscan
  refine ⟨?_, s2, s3, s4, s5⟩
  intro h1
  have e1 := s1 h1
  refine ⟨e1, ?_, ?_, ?_⟩
  · rw [e1]
    simp [List.count_append, List.count_eq_zero.mpr hnotin]
  · rw [e1]
  · rw [e1]

/-- A second sample aircraft: at `(100, 100)`, one unit away from its goal
`(100, 101)` — within `cfg0`'s goal radius. -/
def acA : Aircraft :=
  { id := 0
    position := (100, 100)
    speed := 2
    heading := 0
    velocity := (2, 0)
    reward := 0
    goal := ⟨(100, 101)⟩
    conflict_id_set := ∅ }

/-- A third sample aircraft, 2 units above `acA` — `minOr9999` distance 4 with
`rsqrt = id`, below `cfg0`'s `NMAC_dist` of 30. -/
def acB : Aircraft :=
  { id := 1
    position := (100, 102)
    speed := 2
    heading := 0
    velocity := (2, 0)
    reward := 0
    goal := ⟨(0, 0)⟩
    conflict_id_set := ∅ }

/-- The two-aircraft registry used by concrete witnesses. -/
def dict2 : AircraftDict := ⟨[(0, acA), (1, acB)]⟩

/-- The empty scoring accumulator with all counters at `c`, `g`, `n`. -/
def acc0 : ScoreAcc :=
  { out := [], conflicts := 0, goals := 0, NMACs := 0, reward := 0,
    removal := [], info := [] }

/-- Witness for claim C2: `acA` is simultaneously within NMAC range of `acB`
and within its goal radius; it is scored as a near-miss, the goal counter is
untouched, and it is marked for removal exactly once. -/
theorem claim_C2_witness :
    (scoreAircraft cfg0 id dict2 acc0 (0, acA)).removal.count 0 = 1
    ∧ (scoreAircraft cfg0 id dict2 acc0 (0, acA)).NMACs = acc0.NMACs + 1
    ∧ (scoreAircraft cfg0 id dict2 acc0 (0, acA)).goals = acc0.goals := by
  have h := (claim_C2 cfg0 id dict2 acc0 (0, acA) _ _ _ rfl rfl rfl
    (by simp [acc0])).1
    (by norm_num [dist_to_all_aircraft, metric, minOr9999, dict2, acA, acB,
      cfg0])
  exact ⟨h.2.1, h.2.2.1, h.2.2.2⟩

/-- Claim C1: on a tick where a vertiport's clock counter (after its increment)
has reached its time-next-aircraft and the episode is not in the no-more-spawns
phase, a candidate aircraft is admitted if and only if the minimum distance
from the candidate's position to every live aircraft (the sentinel 9999 when
the registry is empty, built into `minOr9999`) is strictly greater than three
times the minimum separation; on admission the candidate is appended to the
registry, the identity counter is incremented, the vertiport's
time-next-aircraft is redrawn from the configured spawn-interval bounds and its
clock counter is reset to 0; on rejection the state is unchanged except for the
clock increment, so the admission test fires again on every subsequent tick. -/
theorem claim_C1 (cfg : Config) (rsqrt rcos rsin : ℚ → ℚ) (ratan2 : ℚ → ℚ → ℚ)
    (allvps : List VertiPort) (goalChoice : ℕ) (headingDraw intervalDraw : ℚ)
    (st : SpawnState) (vp : VertiPort) (cand : Aircraft) (md : ℚ)
    (hcand : cand = Aircraft.init rcos rsin ratan2 st.id_tracker vp.position
        cfg.init_speed headingDraw (allvps.getD goalChoice default).position)
    (hmd : md = minOr9999 (dist_to_all_aircraft rsqrt st.aircraft_dict cand).1)
    (hclock : vp.clock_counter + 1 ≥ vp.time_next_aircraft)
    (hid : st.id_tracker ∉ st.aircraft_dict.keys) :
    (md > 3 * cfg.minimum_separation →
        spawnVertiport cfg rsqrt rcos rsin ratan2 allvps false goalChoice
            headingDraw intervalDraw st vp
          = some (⟨⟨st.aircraft_dict.ac_dict ++ [(st.id_tracker, cand)]⟩,
                    st.id_tracker + 1⟩,
                  { vp with
                      clock_counter := 0
                      time_next_aircraft := cfg.time_interval_lower
                        + intervalDraw
                          * (cfg.time_interval_upper - cfg.time_interval_lower) }))
    ∧ (¬ md > 3 * cfg.minimum_separation →
        spawnVertiport cfg rsqrt rcos rsin ratan2 allvps false goalChoice
            headingDraw intervalDraw st vp
          = some (st, vp.step))
    ∧ (∀ k : ℚ, 0 ≤ k →
        vp.clock_counter + 1 + k ≥ vp.time_next_aircraft) := by
  have hcid : cand.id = st.id_tracker := by rw [hcand]; rfl
  have hadd : st.aircraft_dict.add cand
      = some ⟨st.aircraft_dict.ac_dict ++ [(st.id_tracker, cand)]⟩ := by
    rw [AircraftDict.add, hcid, if_neg hid]
  refine ⟨?_, ?_, fun k hk => by linarith⟩
  · intro h
    simp only [spawnVertiport, VertiPort.step]
    rw [← hcand, ← hmd]
    rw [if_pos ⟨hclock, trivial⟩, if_pos h, hadd]
    rfl
  · intro h
    simp only [spawnVertiport, VertiPort.step]
    rw [← hcand, ← hmd]
    rw [if_pos ⟨hclock, trivial⟩, if_neg h]

/-- A sample vertiport whose clock fires on the first tick. -/
def vp0 : VertiPort :=
  { id := 0, position := (400, 400), clock_counter := 0,
    time_next_aircraft := 1 }

/-- The empty spawn state, as after `reset`. -/
def st0 : SpawnState := ⟨⟨[]⟩, 0⟩

/-- Witness for claim C1: from an empty registry (sentinel distance 9999,
above `3 * 100`), the candidate is admitted, the identity counter moves to 1,
and the vertiport clock is reset with a freshly drawn interval. -/
theorem claim_C1_witness :
    spawnVertiport cfg0 id id id (fun _ _ => 0) [vp0] false 0 0 0 st0 vp0
      = some (⟨⟨[(0, Aircraft.init id id (fun _ _ => 0) 0 vp0.position
                    cfg0.init_speed 0 vp0.position)]⟩, 1⟩,
              { vp0 with
                  clock_counter := 0
                  time_next_aircraft := cfg0.time_interval_lower
                    + 0 * (cfg0.time_interval_upper
                        - cfg0.time_interval_lower) }) := by
  have h := (claim_C1 cfg0 id id id (fun _ _ => 0) [vp0] 0 0 0 st0 vp0 _ _
    rfl rfl (by norm_num [vp0]) (by simp [st0, AircraftDict.keys])).1
    (by norm_num [st0, dist_to_all_aircraft, minOr9999, cfg0])
  simpa [st0, List.getD] using h

/-- One vertiport's spawn attempt either leaves the registry and the identity
counter unchanged, or appends one aircraft carrying the current counter value
and increments the counter by one. -/
theorem spawnVertiport_cases (cfg : Config) (rsqrt rcos rsin : ℚ → ℚ)
    (ratan2 : ℚ → ℚ → ℚ) (allvps : List VertiPort) (near_end : Bool)
    (goalChoice : ℕ) (headingDraw intervalDraw : ℚ)
    (st : SpawnState) (vp : VertiPort)
    (hinv : ∀ k ∈ st.aircraft_dict.keys, k < st.id_tracker) :
    (∃ vp', spawnVertiport cfg rsqrt rcos rsin ratan2 allvps near_end
        goalChoice headingDraw intervalDraw st vp = some (st, vp'))
    ∨ (∃ cand vp', spawnVertiport cfg rsqrt rcos rsin ratan2 allvps near_end
        goalChoice headingDraw intervalDraw st vp
          = some (⟨⟨st.aircraft_dict.ac_dict ++ [(st.id_tracker, cand)]⟩,
                    st.id_tracker + 1⟩, vp')) := by
  have hid : st.id_tracker ∉ st.aircraft_dict.keys :=
    fun hm => lt_irrefl _ (hinv _ hm)
  simp only [spawnVertiport]
  split_ifs with h1 h2
  · have hadd : st.aircraft_dict.add (Aircraft.init rcos rsin ratan2
        st.id_tracker (vp.step).position cfg.init_speed headingDraw
        (allvps.getD goalChoice default).position)
        = some ⟨st.aircraft_dict.ac_dict ++
            [(st.id_tracker, Aircraft.init rcos rsin ratan2 st.id_tracker
              (vp.step).position cfg.init_speed headingDraw
              (allvps.getD goalChoice default).position)]⟩ := by
      rw [AircraftDict.add]
      exact if_neg hid
    rw [hadd]
    exact Or.inr ⟨_, _, rfl⟩
  · exact Or.inl ⟨_, rfl⟩
  · exact Or.inl ⟨_, rfl⟩

/-- Over the whole spawn loop the newly inserted identities are exactly the
consecutive integers `id_tracker, id_tracker + 1, …`, appended in insertion
order, the counter advances by their number, and every registry key stays
below the counter. -/
theorem spawnLoop_spec (cfg : Config) (rsqrt rcos rsin : ℚ → ℚ)
    (ratan2 : ℚ → ℚ → ℚ) (allvps : List VertiPort) (near_end : Bool)
    (goalChoice : ℕ → ℕ) (headingDraw intervalDraw : ℕ → ℚ) :
    ∀ (vps : List VertiPort) (st : SpawnState),
      (∀ k ∈ st.aircraft_dict.keys, k < st.id_tracker) →
      ∃ n res, spawnLoop cfg rsqrt rcos rsin ratan2 allvps near_end
          goalChoice headingDraw intervalDraw st vps = some res
        ∧ res.1.id_tracker = st.id_tracker + n
        ∧ res.1.aircraft_dict.keys
            = st.aircraft_dict.keys ++ List.range' st.id_tracker n
        ∧ (∀ k ∈ res.1.aircraft_dict.keys, k < res.1.id_tracker) := by
  intro vps
  induction vps with
  | nil =>
    intro st hinv
    exact ⟨0, (st, []), rfl, by simp, by simp, hinv⟩
  | cons vp rest ih =>
    intro st hinv
    rcases spawnVertiport_cases cfg rsqrt rcos rsin ratan2 allvps near_end
        (goalChoice vp.id) (headingDraw vp.id) (intervalDraw vp.id) st vp hinv
      with ⟨vp', hvp⟩ | ⟨cand, vp', hvp⟩
    · obtain ⟨n, res, hres, h1, h2, h3⟩ := ih st hinv
      exact ⟨n, (res.1, vp' :: res.2), by simp [spawnLoop, hvp, hres], h1, h2,
        h3⟩
    · have hinv1 : ∀ k ∈ (⟨⟨st.aircraft_dict.ac_dict ++
          [(st.id_tracker, cand)]⟩, st.id_tracker + 1⟩ :
            SpawnState).aircraft_dict.keys,
          k < st.id_tracker + 1 := by
        intro k hk
        simp only [AircraftDict.keys, List.map_append, List.mem_append] at hk
        rcases hk with hk | hk
        · exact lt_trans (hinv k hk) (Nat.lt_succ_self _)
        · simp at hk
          omega
      obtain ⟨n, res, hres, h1, h2, h3⟩ := ih _ hinv1
      dsimp only at h1 h2
      refine ⟨n + 1, (res.1, vp' :: res.2), by simp [spawnLoop, hvp, hres],
        ?_, ?_, h3⟩
      · rw [h1]
        omega
      · rw [h2]
        simp [AircraftDict.keys, List.range', List.append_assoc]

/-- The scoring loop emits exactly one output entry per scored aircraft,
keeping the key sequence. -/
theorem scoreFold_keys (cfg : Config) (rsqrt : ℚ → ℚ) (snapshot : AircraftDict) :
    ∀ (l : List (ℕ × Aircraft)) (acc : ScoreAcc),
      (l.foldl (scoreAircraft cfg rsqrt snapshot) acc).out.map Prod.fst
        = acc.out.map Prod.fst ++ l.map Prod.fst := by
  intro l
  induction l with
  | nil => intro acc; simp
  | cons e rest ih =>
    intro acc
    rw [List.foldl_cons, ih]
    simp [scoreAircraft]

/-- Removing a batch of ids never adds keys and keeps the survivors' order. -/
theorem removeFold_keys_sublist :
    ∀ (ids : List ℕ) (d : AircraftDict),
      (ids.foldl (fun dd i => dd.remove_id i) d).ac_dict.Sublist d.ac_dict := by
  intro ids
  induction ids with
  | nil => exact fun d => List.Sublist.refl _
  | cons i rest ih =>
    intro d
    exact (ih (d.remove_id i)).trans (List.eraseP_sublist _)

/-- `_terminal_reward` never invents registry entries: its resulting key list
is a sublist of the scored registry's key list. -/
theorem terminalReward_keys_sublist (cfg : Config) (rsqrt : ℚ → ℚ)
    (d : AircraftDict) (conflicts goals NMACs : ℕ) :
    (terminalReward cfg rsqrt d conflicts goals NMACs).dict.keys.Sublist
      d.keys := by
  have h1 := removeFold_keys_sublist
    (d.ac_dict.foldl (scoreAircraft cfg rsqrt d)
      { out := [], conflicts := conflicts, goals := goals, NMACs := NMACs,
        reward := 0, removal := [], info := [] }).removal
    ⟨(d.ac_dict.foldl (scoreAircraft cfg rsqrt d)
      { out := [], conflicts := conflicts, goals := goals, NMACs := NMACs,
        reward := 0, removal := [], info := [] }).out⟩
  have h2 := scoreFold_keys cfg rsqrt d d.ac_dict
    { out := [], conflicts := conflicts, goals := goals, NMACs := NMACs,
      reward := 0, removal := [], info := [] }
  have h3 : (terminalReward cfg rsqrt d conflicts goals NMACs).dict.keys.Sublist
      ((⟨(d.ac_dict.foldl (scoreAircraft cfg rsqrt d)
        { out := [], conflicts := conflicts, goals := goals, NMACs := NMACs,
          reward := 0, removal := [], info := [] }).out⟩ :
            AircraftDict)).keys :=
    h1.map Prod.fst
  refine h3.trans ?_
  show ((d.ac_dict.foldl (scoreAircraft cfg rsqrt d)
      { out := [], conflicts := conflicts, goals := goals, NMACs := NMACs,
        reward := 0, removal := [], info := [] }).out.map Prod.fst).Sublist
    d.keys
  rw [h2]
  simp [AircraftDict.keys]

/-- Claim C9 (implicit): the identity counter starts at 0 after `reset`
(together with an empty registry and zeroed episode counters); over a spawn
pass the aircraft actually inserted receive exactly the consecutive identities
`id_tracker, id_tracker + 1, …` appended in insertion order — a rejected
candidate consumes no identity — the counter advances exactly by the number of
admitted aircraft and dominates every stored key; and the scoring/removal pass
only ever deletes registry entries, so identities are never reused within an
episode. -/
theorem claim_C9 (cfg : Config) (rsqrt rcos rsin : ℚ → ℚ)
    (ratan2 : ℚ → ℚ → ℚ) (allvps : List VertiPort) (near_end : Bool)
    (goalChoice : ℕ → ℕ) (headingDraw intervalDraw : ℕ → ℚ)
    (vps : List VertiPort) (st : SpawnState)
    (hinv : ∀ k ∈ st.aircraft_dict.keys, k < st.id_tracker) :
    envReset.1.id_tracker = 0
    ∧ envReset.1.aircraft_dict.keys = []
    ∧ envReset.2 = (0, 0, 0)
    ∧ (∃ n res, spawnLoop cfg rsqrt rcos rsin ratan2 allvps near_end
          goalChoice headingDraw intervalDraw st vps = some res
        ∧ res.1.id_tracker = st.id_tracker + n
        ∧ res.1.aircraft_dict.keys
            = st.aircraft_dict.keys ++ List.range' st.id_tracker n
        ∧ (∀ k ∈ res.1.aircraft_dict.keys, k < res.1.id_tracker))
    ∧ (∀ (d : AircraftDict) (c g m : ℕ),
        (terminalReward cfg rsqrt d c g m).dict.keys.Sublist d.keys) :=
  ⟨rfl, rfl, rfl,
    spawnLoop_spec cfg rsqrt rcos rsin ratan2 allvps near_end goalChoice
      headingDraw intervalDraw vps st hinv,
    fun d c g m => terminalReward_keys_sublist cfg rsqrt d c g m⟩

/-- Witness for claim C9 with the post-reset state and one vertiport. -/
theorem claim_C9_witness :
    envReset.1.id_tracker = 0 ∧ envReset.1.aircraft_dict.keys = [] :=
  ⟨(claim_C9 cfg0 id id id (fun _ _ => 0) [vp0] false (fun _ => 0)
      (fun _ => 0) (fun _ => 0) [vp0] st0
      (by simp [st0, AircraftDict.keys])).1,
   (claim_C9 cfg0 id id id (fun _ _ => 0) [vp0] false (fun _ => 0)
      (fun _ => 0) (fun _ => 0) [vp0] st0
      (by simp [st0, AircraftDict.keys])).2.1⟩

/-- The Euclidean metric is symmetric (whatever the square root does, its
argument is). -/
theorem metric_comm (rsqrt : ℚ → ℚ) (p q : ℚ × ℚ) :
    metric rsqrt p q = metric rsqrt q p := by
  unfold metric
  congr 1
  ring

/-- Distances seen by the first aircraft of a two-aircraft registry. -/
theorem dist_two_left (rsqrt : ℚ → ℚ) (X Y : Aircraft) (kx ky : ℕ)
    (hkx : X.id = kx) (hid : kx ≠ ky) :
    dist_to_all_aircraft rsqrt ⟨[(kx, X), (ky, Y)]⟩ X
      = ([metric rsqrt X.position Y.position], [ky]) := by
  simp [dist_to_all_aircraft, hkx, Ne.symm hid]

/-- Distances seen by the second aircraft of a two-aircraft registry. -/
theorem dist_two_right (rsqrt : ℚ → ℚ) (X Y : Aircraft) (kx ky : ℕ)
    (hky : Y.id = ky) (hid : kx ≠ ky) :
    dist_to_all_aircraft rsqrt ⟨[(kx, X), (ky, Y)]⟩ Y
      = ([metric rsqrt Y.position X.position], [kx]) := by
  simp [dist_to_all_aircraft, hky, hid]

/-- The conflict scan over a single intruder below the separation threshold:
the conflict flag rises, the intruder id enters the conflict set, the global
counter is bumped exactly when the id was not yet tracked, and the reward
becomes the conflict penalty. -/
theorem scan_single_below (cfg : Config) (oid : ℕ) (d : ℚ) (ac : Aircraft)
    (c : ℕ) (h : d < cfg.minimum_separation) :
    conflictScan cfg [(oid, d)] ac c
      = ({ ac with
            reward := cfg.conflict_penalty
            conflict_id_set := insert oid ac.conflict_id_set },
         c + (if oid ∈ ac.conflict_id_set then 0 else 1), true) := by
  unfold conflictScan scanStep
  simp only [List.foldl_cons, List.foldl_nil]
  rw [if_neg (not_le.mpr h)]
  by_cases hm : oid ∈ ac.conflict_id_set
  · rw [if_pos hm, if_pos hm, Finset.insert_eq_self.mpr hm]
    rfl
  · rw [if_neg hm, if_neg hm]

/-- The conflict scan over a single intruder at or above the separation
threshold: the id is discarded from the conflict set and nothing else
changes. -/
theorem scan_single_above (cfg : Config) (oid : ℕ) (d : ℚ) (ac : Aircraft)
    (c : ℕ) (h : cfg.minimum_separation ≤ d) :
    conflictScan cfg [(oid, d)] ac c
      = ({ ac with conflict_id_set := ac.conflict_id_set.erase oid },
         c, false) := by
  unfold conflictScan scanStep
  simp only [List.foldl_cons, List.foldl_nil]
  rw [if_pos h]

/-- One scoring tick over a two-aircraft registry whose separation is below
the conflict threshold but at or above NMAC range, with both aircraft in
bounds and away from their goals: both stay, each records the other's id in
its conflict set, the global counter gains one per side whose set did not yet
hold the other's id, and both rewards become the conflict penalty. -/
theorem tick_two_below (cfg : Config) (rsqrt : ℚ → ℚ) (X Y : Aircraft)
    (kx ky : ℕ) (c g n : ℕ) (hkx : X.id = kx) (hky : Y.id = ky)
    (hid : kx ≠ ky)
    (hn : cfg.NMAC_dist ≤ metric rsqrt X.position Y.position)
    (hs : metric rsqrt X.position Y.position < cfg.minimum_separation)
    (hcx : containsPos cfg X.position) (hcy : containsPos cfg Y.position)
    (hgx : cfg.goal_radius ≤ metric rsqrt X.position X.goal.position)
    (hgy : cfg.goal_radius ≤ metric rsqrt Y.position Y.goal.position) :
    terminalReward cfg rsqrt ⟨[(kx, X), (ky, Y)]⟩ c g n
      = { dict := ⟨[(kx, { X with
              reward := cfg.conflict_penalty
              conflict_id_set := insert ky X.conflict_id_set }),
            (ky, { Y with
              reward := cfg.conflict_penalty
              conflict_id_set := insert kx Y.conflict_id_set })]⟩
          conflicts := c + (if ky ∈ X.conflict_id_set then 0 else 1)
            + (if kx ∈ Y.conflict_id_set then 0 else 1)
          goals := g
          NMACs := n
          reward := 0 + cfg.conflict_penalty + cfg.conflict_penalty
          terminal := false
          info := [metric rsqrt X.position Y.position,
                   metric rsqrt Y.position X.position] } := by
  have hn' : cfg.NMAC_dist ≤ metric rsqrt Y.position X.position := by
    rw [metric_comm]
    exact hn
  have hs' : metric rsqrt Y.position X.position < cfg.minimum_separation := by
    rw [metric_comm]
    exact hs
  have eX := (scoreAircraft_spec cfg rsqrt ⟨[(kx, X), (ky, Y)]⟩
      { out := []
        conflicts := c
        goals := g
        NMACs := n
        reward := 0
        removal := []
        info := [] } (kx, X)
      (metric rsqrt X.position Y.position)
      (metric rsqrt X.position X.goal.position)
      ({ X with
          reward := cfg.conflict_penalty
          conflict_id_set := insert ky X.conflict_id_set },
        c + (if ky ∈ X.conflict_id_set then 0 else 1), true)
      (by dsimp only
          rw [dist_two_left rsqrt X Y kx ky hkx hid]
          simp [minOr9999])
      rfl
      (by dsimp only
          rw [dist_two_left rsqrt X Y kx ky hkx hid]
          exact (scan_single_below cfg ky
            (metric rsqrt X.position Y.position) X c hs).symm)
    ).2.2.2.2 (not_lt.mpr hn) hcx (not_lt.mpr hgx) rfl
  have eY := (scoreAircraft_spec cfg rsqrt ⟨[(kx, X), (ky, Y)]⟩
      { out := [(kx, { X with
            reward := cfg.conflict_penalty
            conflict_id_set := insert ky X.conflict_id_set })]
        conflicts := c + (if ky ∈ X.conflict_id_set then 0 else 1)
        goals := g
        NMACs := n
        reward := 0 + cfg.conflict_penalty
        removal := []
        info := [metric rsqrt X.position Y.position] } (ky, Y)
      (metric rsqrt Y.position X.position)
      (metric rsqrt Y.position Y.goal.position)
      ({ Y with
          reward := cfg.conflict_penalty
          conflict_id_set := insert kx Y.conflict_id_set },
        c + (if ky ∈ X.conflict_id_set then 0 else 1)
          + (if kx ∈ Y.conflict_id_set then 0 else 1), true)
      (by dsimp only
          rw [dist_two_right rsqrt X Y kx ky hky hid]
          simp [minOr9999])
      rfl
      (by dsimp only
          rw [dist_two_right rsqrt X Y kx ky hky hid]
          exact (scan_single_below cfg kx
            (metric rsqrt Y.position X.position) Y
            (c + (if ky ∈ X.conflict_id_set then 0 else 1)) hs').symm)
    ).2.2.2.2 (not_lt.mpr hn') hcy (not_lt.mpr hgy) rfl
  simp only [terminalReward, List.foldl_cons, List.foldl_nil, eX]
  simp only [List.nil_append]
  rw [eY]
  simp only [List.singleton_append, List.nil_append, List.cons_append,
    List.foldl_nil]

/-- One scoring tick over a two-aircraft registry whose separation is at or
above the conflict threshold, with both aircraft in bounds and away from
their goals: both stay, each discards the other's id from its conflict set
(a no-op when absent), the global counter does not move, and both collect the
per-tick step penalty. -/
theorem tick_two_above (cfg : Config) (rsqrt : ℚ → ℚ) (X Y : Aircraft)
    (kx ky : ℕ) (c g n : ℕ) (hkx : X.id = kx) (hky : Y.id = ky)
    (hid : kx ≠ ky)
    (hnm : cfg.NMAC_dist ≤ cfg.minimum_separation)
    (hs : cfg.minimum_separation ≤ metric rsqrt X.position Y.position)
    (hcx : containsPos cfg X.position) (hcy : containsPos cfg Y.position)
    (hgx : cfg.goal_radius ≤ metric rsqrt X.position X.goal.position)
    (hgy : cfg.goal_radius ≤ metric rsqrt Y.position Y.goal.position) :
    terminalReward cfg rsqrt ⟨[(kx, X), (ky, Y)]⟩ c g n
      = { dict := ⟨[(kx, { X with
              reward := cfg.step_penalty
              conflict_id_set := X.conflict_id_set.erase ky }),
            (ky, { Y with
              reward := cfg.step_penalty
              conflict_id_set := Y.conflict_id_set.erase kx })]⟩
          conflicts := c
          goals := g
          NMACs := n
          reward := 0 + cfg.step_penalty + cfg.step_penalty
          terminal := false
          info := [metric rsqrt X.position Y.position,
                   metric rsqrt Y.position X.position] } := by
  have hs' : cfg.minimum_separation ≤ metric rsqrt Y.position X.position := by
    rw [metric_comm]
    exact hs
  have eX := (scoreAircraft_spec cfg rsqrt ⟨[(kx, X), (ky, Y)]⟩
      { out := []
        conflicts := c
        goals := g
        NMACs := n
        reward := 0
        removal := []
        info := [] } (kx, X)
      (metric rsqrt X.position Y.position)
      (metric rsqrt X.position X.goal.position)
      ({ X with conflict_id_set := X.conflict_id_set.erase ky }, c, false)
      (by dsimp only
          rw [dist_two_left rsqrt X Y kx ky hkx hid]
          simp [minOr9999])
      rfl
      (by dsimp only
          rw [dist_two_left rsqrt X Y kx ky hkx hid]
          exact (scan_single_above cfg ky
            (metric rsqrt X.position Y.position) X c hs).symm)
    ).2.2.2.1 (not_lt.mpr (hnm.trans hs)) hcx (not_lt.mpr hgx) rfl
  have eY := (scoreAircraft_spec cfg rsqrt ⟨[(kx, X), (ky, Y)]⟩
      { out := [(kx, { X with
            reward := cfg.step_penalty
            conflict_id_set := X.conflict_id_set.erase ky })]
        conflicts := c
        goals := g
        NMACs := n
        reward := 0 + cfg.step_penalty
        removal := []
        info := [metric rsqrt X.position Y.position] } (ky, Y)
      (metric rsqrt Y.position X.position)
      (metric rsqrt Y.position Y.goal.position)
      ({ Y with conflict_id_set := Y.conflict_id_set.erase kx }, c, false)
      (by dsimp only
          rw [dist_two_right rsqrt X Y kx ky hky hid]
          simp [minOr9999])
      rfl
      (by dsimp only
          rw [dist_two_right rsqrt X Y kx ky hky hid]
          exact (scan_single_above cfg kx
            (metric rsqrt Y.position X.position) Y c hs').symm)
    ).2.2.2.1 (not_lt.mpr (hnm.trans hs')) hcy (not_lt.mpr hgy) rfl
  simp only [terminalReward, List.foldl_cons, List.foldl_nil, eX]
  simp only [List.nil_append]
  rw [eY]
  simp only [List.singleton_append, List.nil_append, List.cons_append,
    List.foldl_nil]

/-- Claim C3: conflict-set hysteresis and double counting.  When the distance
between two live aircraft drops below the minimum separation, the global
conflict counter is incremented once from each side's scan (each adding the
other's id to its conflict-id set) and not again on subsequent ticks while the
pair stays below the threshold; when the distance returns to at least the
minimum separation each side discards the other's id; so a separation below
the threshold for 3 consecutive ticks that then rises increments the counter
exactly twice in total across the pair.  Positions between scoring ticks move
via `updatePos` (the kinematics phase's footprint on the conflict
bookkeeping). -/
theorem claim_C3 (cfg : Config) (rsqrt : ℚ → ℚ) (A B : Aircraft)
    (f1 f2 f3 f4 : ℕ → ℚ × ℚ) (c g n : ℕ) (s1 s2 s3 s4 : ScoreResult)
    (hAB : A.id ≠ B.id)
    (hA0 : B.id ∉ A.conflict_id_set) (hB0 : A.id ∉ B.conflict_id_set)
    (hs1 : s1 = terminalReward cfg rsqrt
        (updatePos f1 ⟨[(A.id, A), (B.id, B)]⟩) c g n)
    (hs2 : s2 = terminalReward cfg rsqrt (updatePos f2 s1.dict)
        s1.conflicts s1.goals s1.NMACs)
    (hs3 : s3 = terminalReward cfg rsqrt (updatePos f3 s2.dict)
        s2.conflicts s2.goals s2.NMACs)
    (hs4 : s4 = terminalReward cfg rsqrt (updatePos f4 s3.dict)
        s3.conflicts s3.goals s3.NMACs)
    (hnm : cfg.NMAC_dist ≤ cfg.minimum_separation)
    (h1n : cfg.NMAC_dist ≤ metric rsqrt (f1 A.id) (f1 B.id))
    (h1s : metric rsqrt (f1 A.id) (f1 B.id) < cfg.minimum_separation)
    (h2n : cfg.NMAC_dist ≤ metric rsqrt (f2 A.id) (f2 B.id))
    (h2s : metric rsqrt (f2 A.id) (f2 B.id) < cfg.minimum_separation)
    (h3n : cfg.NMAC_dist ≤ metric rsqrt (f3 A.id) (f3 B.id))
    (h3s : metric rsqrt (f3 A.id) (f3 B.id) < cfg.minimum_separation)
    (h4s : cfg.minimum_separation ≤ metric rsqrt (f4 A.id) (f4 B.id))
    (hcA1 : containsPos cfg (f1 A.id)) (hcB1 : containsPos cfg (f1 B.id))
    (hcA2 : containsPos cfg (f2 A.id)) (hcB2 : containsPos cfg (f2 B.id))
    (hcA3 : containsPos cfg (f3 A.id)) (hcB3 : containsPos cfg (f3 B.id))
    (hcA4 : containsPos cfg (f4 A.id)) (hcB4 : containsPos cfg (f4 B.id))
    (hgA1 : cfg.goal_radius ≤ metric rsqrt (f1 A.id) A.goal.position)
    (hgA2 : cfg.goal_radius ≤ metric rsqrt (f2 A.id) A.goal.position)
    (hgA3 : cfg.goal_radius ≤ metric rsqrt (f3 A.id) A.goal.position)
    (hgA4 : cfg.goal_radius ≤ metric rsqrt (f4 A.id) A.goal.position)
    (hgB1 : cfg.goal_radius ≤ metric rsqrt (f1 B.id) B.goal.position)
    (hgB2 : cfg.goal_radius ≤ metric rsqrt (f2 B.id) B.goal.position)
    (hgB3 : cfg.goal_radius ≤ metric rsqrt (f3 B.id) B.goal.position)
    (hgB4 : cfg.goal_radius ≤ metric rsqrt (f4 B.id) B.goal.position) :
    s1.conflicts = c + 2 ∧ s2.conflicts = c + 2 ∧ s3.conflicts = c + 2
    ∧ s4.conflicts = c + 2
    ∧ ∃ A4 B4 : Aircraft,
        s4.dict.ac_dict = [(A.id, A4), (B.id, B4)]
        ∧ B.id ∉ A4.conflict_id_set ∧ A.id ∉ B4.conflict_id_set := by
  simp only [updatePos, List.map_cons, List.map_nil] at hs1
  try dsimp only at hs1
  rw [tick_two_below cfg rsqrt
      { A with position := f1 A.id }
      { B with position := f1 B.id }
      A.id B.id c g n rfl rfl hAB h1n h1s hcA1 hcB1 hgA1 hgB1] at hs1
  try dsimp only at hs1
  rw [if_neg hA0, if_neg hB0] at hs1
  rw [hs1] at hs2
  try dsimp only at hs2
  simp only [updatePos, List.map_cons, List.map_nil] at hs2
  try dsimp only at hs2
  rw [tick_two_below cfg rsqrt
      { A with
          position := f2 A.id
          reward := cfg.conflict_penalty
          conflict_id_set := insert B.id A.conflict_id_set }
      { B with
          position := f2 B.id
          reward := cfg.conflict_penalty
          conflict_id_set := insert A.id B.conflict_id_set }
      A.id B.id (c + 1 + 1) g n rfl rfl hAB h2n h2s hcA2 hcB2 hgA2 hgB2]
    at hs2
  try dsimp only at hs2
  rw [if_pos (Finset.mem_insert_self B.id A.conflict_id_set),
    if_pos (Finset.mem_insert_self A.id B.conflict_id_set)] at hs2
  simp only [Finset.insert_idem] at hs2
  rw [hs2] at hs3
  try dsimp only at hs3
  simp only [updatePos, List.map_cons, List.map_nil] at hs3
  try dsimp only at hs3
  rw [tick_two_below cfg rsqrt
      { A with
          position := f3 A.id
          reward := cfg.conflict_penalty
          conflict_id_set := insert B.id A.conflict_id_set }
      { B with
          position := f3 B.id
          reward := cfg.conflict_penalty
          conflict_id_set := insert A.id B.conflict_id_set }
      A.id B.id (c + 1 + 1 + 0 + 0) g n rfl rfl hAB h3n h3s hcA3 hcB3
      hgA3 hgB3] at hs3
  try dsimp only at hs3
  rw [if_pos (Finset.mem_insert_self B.id A.conflict_id_set),
    if_pos (Finset.mem_insert_self A.id B.conflict_id_set)] at hs3
  simp only [Finset.insert_idem] at hs3
  rw [hs3] at hs4
  try dsimp only at hs4
  simp only [updatePos, List.map_cons, List.map_nil] at hs4
  try dsimp only at hs4
  rw [tick_two_above cfg rsqrt
      { A with
          position := f4 A.id
          reward := cfg.conflict_penalty
          conflict_id_set := insert B.id A.conflict_id_set }
      { B with
          position := f4 B.id
          reward := cfg.conflict_penalty
          conflict_id_set := insert A.id B.conflict_id_set }
      A.id B.id (c + 1 + 1 + 0 + 0 + 0 + 0) g n rfl rfl hAB hnm h4s hcA4
      hcB4 hgA4 hgB4] at hs4
  try dsimp only at hs4
  refine ⟨by rw [hs1], by rw [hs2], by rw [hs3], by rw [hs4], ?_⟩
  refine ⟨_, _, by rw [hs4], ?_, ?_⟩
  · exact Finset.not_mem_erase B.id _
  · exact Finset.not_mem_erase A.id _

/-- A fourth sample aircraft for the hysteresis witness, with a far goal. -/
def ac1 : Aircraft :=
  { id := 1
    position := (100, 108)
    speed := 2
    heading := 0
    velocity := (2, 0)
    reward := 0
    goal := ⟨(0, 0)⟩
    conflict_id_set := ∅ }

/-- Positions for the three below-threshold ticks of the hysteresis witness
(`rsqrt = id`, so the metric is the squared distance 64, between `cfg0`'s
NMAC distance 30 and separation 100). -/
def w1 : ℕ → ℚ × ℚ := fun i => if i = 0 then (100, 100) else (100, 108)

/-- Positions for the final tick of the hysteresis witness (squared distance
121, above `cfg0`'s separation 100). -/
def w4 : ℕ → ℚ × ℚ := fun i => if i = 0 then (100, 100) else (100, 111)

/-- Witness for claim C3: on the first below-threshold tick the conflict
counter already reaches 2 (once per side of the pair). -/
theorem claim_C3_witness :
    (terminalReward cfg0 id (updatePos w1 ⟨[(0, ac0), (1, ac1)]⟩)
        0 0 0).conflicts = 0 + 2 := by
  have h := claim_C3 cfg0 id ac0 ac1 w1 w1 w1 w4 0 0 0 _ _ _ _
    (by decide) (by decide) (by decide) rfl rfl rfl rfl
    (by norm_num [cfg0])
    (by norm_num [metric, w1, ac0, ac1, cfg0, id_eq])
    (by norm_num [metric, w1, ac0, ac1, cfg0, id_eq])
    (by norm_num [metric, w1, ac0, ac1, cfg0, id_eq])
    (by norm_num [metric, w1, ac0, ac1, cfg0, id_eq])
    (by norm_num [metric, w1, ac0, ac1, cfg0, id_eq])
    (by norm_num [metric, w1, ac0, ac1, cfg0, id_eq])
    (by norm_num [metric, w4, ac0, ac1, cfg0, id_eq])
    (by norm_num [containsPos, w1, ac0, cfg0])
    (by norm_num [containsPos, w1, ac1, cfg0])
    (by norm_num [containsPos, w1, ac0, cfg0])
    (by norm_num [containsPos, w1, ac1, cfg0])
    (by norm_num [containsPos, w1, ac0, cfg0])
    (by norm_num [containsPos, w1, ac1, cfg0])
    (by norm_num [containsPos, w4, ac0, cfg0])
    (by norm_num [containsPos, w4, ac1, cfg0])
    (by norm_num [metric, w1, ac0, cfg0, id_eq])
    (by norm_num [metric, w1, ac0, cfg0, id_eq])
    (by norm_num [metric, w1, ac0, cfg0, id_eq])
    (by norm_num [metric, w4, ac0, cfg0, id_eq])
    (by norm_num [metric, w1, ac1, cfg0, id_eq])
    (by norm_num [metric, w1, ac1, cfg0, id_eq])
    (by norm_num [metric, w1, ac1, cfg0, id_eq])
    (by norm_num [metric, w4, ac1, cfg0, id_eq])
  exact h.1

end MultiAircraftVertiportEnv
